import Mathlib

/-!
# Verification of the senvoice SDK core

A shallow embedding, in Lean 4, of the transport / façade / orchestrator layer
of the `senvoice` Python SDK (`src/senvoice/`), together with theorems settling
the specification claims about it.

The embedding models:
* `exceptions.py` — the error taxonomy (`SdkError`);
* `base.py` — `BaseClient` (authenticated) and `LocalClient` (unauthenticated)
  and their `_make_request` / `ping`;
* `streaming.py` — `StreamingMixin._stream_request`;
* `tts.py` — `synthesize` / `synthesize_stream` (identical for the
  authenticated and local variants, so defined once over a `Client`);
* `stt.py` — `transcribe` (again identical across the two variants);
* `client.py` — the `SenVoice` orchestrator: endpoint resolution, the lazy
  cached per-service client properties, `configure_tts_fr`, and `ping_all`.

Network I/O is modelled by an oracle `Net : Request → NetResult` mapping each
issued HTTP request to either a transport-level failure or an `HttpResponse`.
Every operation returns, next to its result, the list of requests it issued,
so that "performs zero network calls" is expressible.  Bytes are `Nat`
(meaningful values `< 256`); a response body is given both as raw text, as an
optional decoded JSON object (`none` when the body is not valid JSON), and as
the chunk sequence seen by a streaming consumer.
-/

deriving instance DecidableEq for Except

namespace SenVoiceSDK

/-- One binary chunk of a streamed response body: a list of bytes, each byte
a `Nat` (meaningful values `< 256`). -/
abbrev Chunk := List Nat

/-- A JSON-ish value as it appears in request/response dictionaries:
the SDK only ever puts strings and integers into the bodies the claims
inspect. -/
inductive JVal where
  | s (v : String)
  | n (v : Int)
  deriving DecidableEq, Repr

/-- A Python `Dict[str, Any]` restricted to the value shapes above,
with insertion order kept (Python dicts are ordered). -/
abbrev JDict := List (String × JVal)

/-- `d.get(k)` — first binding of `k` in `d`. -/
def jdictGet (d : JDict) (k : String) : Option JVal :=
  match d with
  | [] => none
  | (k2, v) :: rest => if k2 == k then some v else jdictGet rest k

/-- `k in d`. -/
def jdictHas (d : JDict) (k : String) : Bool := (jdictGet d k).isSome

/-- Python `d.update(kw)`: existing keys keep their position but take the
value from `kw`; keys new in `kw` are appended in order. -/
def jdictUpdate (d kw : JDict) : JDict :=
  d.map (fun p => match jdictGet kw p.1 with | some v => (p.1, v) | none => p)
    ++ kw.filter (fun p => !(jdictHas d p.1))

/-- Python string truthiness: non-empty. -/
def pyTruthy (s : String) : Bool := !s.isEmpty

/-- Truthiness of `Optional[str]`: `None` and `""` are falsy. -/
def pyTruthyOpt (o : Option String) : Bool :=
  match o with
  | none => false
  | some s => pyTruthy s

/-- The whitespace set of Python `str.strip()` (ASCII part). -/
def pyIsSpace (c : Char) : Bool :=
  c == ' ' || c == '\t' || c == '\n' || c == '\r' || c == '\x0b' || c == '\x0c'

/-- Python `s.strip()`. -/
def pyStrip (s : String) : String :=
  String.mk (((s.data.dropWhile pyIsSpace).reverse.dropWhile pyIsSpace).reverse)

/-- Python `s.rstrip('/')` (used on base URLs at client construction). -/
def rstripSlash (s : String) : String :=
  String.mk ((s.data.reverse.dropWhile (fun c => c == '/')).reverse)

/-! ## Error taxonomy (`exceptions.py`) -/

def msgKeyRequired : String := "API key is required"
def msgAuthFailed : String := "Invalid API key or authentication failed"

/-- The exception classes of `exceptions.py` that the core raises.
`apiError` carries the optional numeric status code exactly as
`APIError.status_code`. -/
inductive SdkError where
  | validationError (msg : String)
  | authenticationError (msg : String)
  | apiError (msg : String) (statusCode : Option Nat)
  | connectionError (msg : String)
  deriving DecidableEq, Repr

/-- Python `str(exc)`: the human-readable message. -/
def SdkError.message : SdkError → String
  | .validationError m => m
  | .authenticationError m => m
  | .apiError m _ => m
  | .connectionError m => m

/-! ## The network oracle -/

/-- An HTTP request as issued by the clients. -/
structure Request where
  method : String
  url : String
  headers : List (String × String)
  data : Option JDict
  params : Option JDict
  deriving DecidableEq, Repr

/-- An HTTP response: status, the body as decoded JSON object when it is
valid JSON (`none` otherwise), the body as raw text, and the body as the
sequence of chunks a streaming consumer receives. -/
structure HttpResponse where
  status : Nat
  json : Option JDict
  text : String
  chunks : List Chunk
  deriving DecidableEq, Repr

/-- What the network does with one request: the three `aiohttp` failure
modes caught by the clients, or a response. -/
inductive NetResult where
  | timeout
  | connectionFailure (msg : String)
  | clientFailure (msg : String)
  | response (r : HttpResponse)
  deriving DecidableEq, Repr

/-- The deterministic network oracle a run is evaluated against. -/
abbrev Net := Request → NetResult

/-! ## Transport (`base.py`) -/

def hdrContentType : String := "Content-Type"
def hdrAppJson : String := "application/json"
def hdrAuthorization : String := "Authorization"
def hdrBearer : String := "Bearer "

/-- A transport instance: `BaseClient` (authenticated) or `LocalClient`.
The stored `base_url` is already `rstrip('/')`-normalized, as both
constructors do. -/
inductive Client where
  | authC (api_key : String) (base_url : String) (timeout : Int)
  | localC (base_url : String) (timeout : Int)
  deriving DecidableEq, Repr

def Client.base_url : Client → String
  | .authC _ u _ => u
  | .localC u _ => u

def Client.timeout : Client → Int
  | .authC _ _ t => t
  | .localC _ t => t

/-- The fixed header set: `Content-Type` always, `Authorization: Bearer <key>`
only for the authenticated variant. -/
def Client.headers : Client → List (String × String)
  | .authC key _ _ => [(hdrContentType, hdrAppJson), (hdrAuthorization, hdrBearer ++ key)]
  | .localC _ _ => [(hdrContentType, hdrAppJson)]

/-- Whether this is the authenticated variant (`BaseClient`), whose
`_make_request` maps HTTP 401 to `AuthenticationError`; `LocalClient` has no
such clause. -/
def Client.isAuth : Client → Bool
  | .authC _ _ _ => true
  | .localC _ _ => false

/-- `BaseClient.__init__`: rejects a falsy `api_key` with
`AuthenticationError`, normalizes the base URL. -/
def BaseClient.build (api_key base_url : String) (timeout : Int) : Except SdkError Client :=
  if !pyTruthy api_key then .error (.authenticationError msgKeyRequired)
  else .ok (.authC api_key (rstripSlash base_url) timeout)

/-- `LocalClient.__init__`. -/
def LocalClient.build (base_url : String) (timeout : Int) : Client :=
  .localC (rstripSlash base_url) timeout

/-- The request a client sends for a given method/endpoint/body/query:
`url = f"{self.base_url}{endpoint}"` plus the session's default headers. -/
def mkReq (c : Client) (method endpoint : String) (data params : Option JDict) : Request :=
  ⟨method, c.base_url ++ endpoint, c.headers, data, params⟩

def msgTimedOutPre : String := "Request timed out after "
def msgTimedOutSuf : String := " seconds"
def msgConnectPre : String := "Failed to connect to API: "
def msgReqFailedPre : String := "Request failed: "
def kError : String := "error"
def kResponse : String := "response"
def msgHttp : String := "HTTP "
def msgColonSp : String := ": "

/-- `error_data.get('error', f'HTTP {status}')`, stringified.  (In Python the
raw JSON value object is carried; no claim inspects a non-string case.) -/
def jvalText : JVal → String
  | .s v => v
  | .n v => toString v

/-- The error message both `_make_request`s and `_stream_request` compute for
a status `≥ 400` response: the JSON body's `error` field when the body parses,
otherwise `f'HTTP {status}: {raw text}'`. -/
def errorBodyMessage (r : HttpResponse) : String :=
  match r.json with
  | some d =>
    match jdictGet d kError with
    | some v => jvalText v
    | none => msgHttp ++ toString r.status
  | none => msgHttp ++ toString r.status ++ msgColonSp ++ r.text

/-- Shared body of `BaseClient._make_request` and `LocalClient._make_request`
(the two are textually identical in `base.py` except that only the former has
the `response.status == 401` clause, selected here by `checks401`): how one
network outcome is classified into a result. -/
def makeRequestResult (checks401 : Bool) (timeout : Int) :
    NetResult → Except SdkError JDict
  | .timeout =>
    .error (.connectionError (msgTimedOutPre ++ toString timeout ++ msgTimedOutSuf))
  | .connectionFailure m => .error (.connectionError (msgConnectPre ++ m))
  | .clientFailure m => .error (.apiError (msgReqFailedPre ++ m) none)
  | .response r =>
    if checks401 && r.status == 401 then
      .error (.authenticationError msgAuthFailed)
    else if r.status ≥ 400 then
      .error (.apiError (errorBodyMessage r) (some r.status))
    else
      match r.json with
      | some d => .ok d
      | none => .ok [(kResponse, .s r.text)]

/-- `_make_request` of the respective variant: issues exactly the one request
and classifies the network's answer. -/
def Client.make_request (c : Client) (net : Net) (method endpoint : String)
    (data params : Option JDict) : Except SdkError JDict × List Request :=
  let req := mkReq c method endpoint data params
  (makeRequestResult c.isAuth c.timeout (net req), [req])

def mGET : String := "GET"
def mPOST : String := "POST"
def epPing : String := "/ping"

/-- `ping()` — `self._make_request('GET', '/ping')`. -/
def Client.ping (c : Client) (net : Net) : Except SdkError JDict × List Request :=
  c.make_request net mGET epPing none none

/-! ## Streaming extension (`streaming.py`) -/

/-- `StreamingMixin._stream_request`'s classification of one network outcome.
Unlike `LocalClient._make_request`, the mixin maps HTTP 401 to
`AuthenticationError` for *every* client it is mixed into.  On success it
yields the response's non-empty chunks in order (`iter_chunked` consumption
with the `if chunk:` guard). -/
def streamRequestResult (timeout : Int) : NetResult → Except SdkError (List Chunk)
  | .timeout =>
    .error (.connectionError (msgTimedOutPre ++ toString timeout ++ msgTimedOutSuf))
  | .connectionFailure m => .error (.connectionError (msgConnectPre ++ m))
  | .clientFailure m => .error (.apiError (msgReqFailedPre ++ m) none)
  | .response r =>
    if r.status == 401 then
      .error (.authenticationError msgAuthFailed)
    else if r.status ≥ 400 then
      .error (.apiError (errorBodyMessage r) (some r.status))
    else
      .ok (r.chunks.filter (fun ch => !ch.isEmpty))

/-- `StreamingMixin._stream_request`: issues exactly the one request and
streams (or classifies) the network's answer. -/
def Client.stream_request (c : Client) (net : Net) (method endpoint : String)
    (data params : Option JDict) : Except SdkError (List Chunk) × List Request :=
  let req := mkReq c method endpoint data params
  (streamRequestResult c.timeout (net req), [req])

/-! ## Base64

Model of the Python standard library calls the façades make:
`base64.b64encode` (in `synthesize`) and `base64.b64decode(_, validate=True)`
(the pure-validation decode in `transcribe`).  Strict decoding: every
character must be in the alphabet, the length a multiple of four, `'='`
only as final padding (one or two). -/

def b64chars : List Char :=
  ['A','B','C','D','E','F','G','H','I','J','K','L','M',
   'N','O','P','Q','R','S','T','U','V','W','X','Y','Z',
   'a','b','c','d','e','f','g','h','i','j','k','l','m',
   'n','o','p','q','r','s','t','u','v','w','x','y','z',
   '0','1','2','3','4','5','6','7','8','9','+','/']

def b64charOf (n : Nat) : Char := b64chars.getD n 'A'

def b64indexOf (c : Char) : Option Nat := b64chars.findIdx? (fun c2 => c2 == c)

def padChar : Char := '='

def b64encodeGo : List Nat → List Char
  | [] => []
  | [b0] => [b64charOf (b0 / 4), b64charOf (b0 % 4 * 16), padChar, padChar]
  | [b0, b1] =>
    [b64charOf (b0 / 4), b64charOf (b0 % 4 * 16 + b1 / 16), b64charOf (b1 % 16 * 4), padChar]
  | b0 :: b1 :: b2 :: rest =>
    b64charOf (b0 / 4) :: b64charOf (b0 % 4 * 16 + b1 / 16) ::
      b64charOf (b1 % 16 * 4 + b2 / 64) :: b64charOf (b2 % 64) :: b64encodeGo rest

/-- `base64.b64encode(bytes).decode('utf-8')`. -/
def b64encodeStr (bs : List Nat) : String := String.mk (b64encodeGo bs)

def b64decodeGo : List Char → Option (List Nat)
  | [] => some []
  | c0 :: c1 :: c2 :: c3 :: rest =>
    match b64indexOf c0, b64indexOf c1 with
    | some s0, some s1 =>
      if c2 == padChar then
        if c3 == padChar && rest.isEmpty then some [s0 * 4 + s1 / 16] else none
      else
        match b64indexOf c2 with
        | some s2 =>
          if c3 == padChar then
            if rest.isEmpty then some [s0 * 4 + s1 / 16, s1 % 16 * 16 + s2 / 4] else none
          else
            match b64indexOf c3 with
            | some s3 =>
              match b64decodeGo rest with
              | some tail =>
                some ((s0 * 4 + s1 / 16) :: (s1 % 16 * 16 + s2 / 4) :: (s2 % 4 * 64 + s3) :: tail)
              | none => none
            | none => none
        | none => none
    | _, _ => none
  | _ => none

/-- `base64.b64decode(s, validate=True)`: `none` models the raised
`binascii.Error`. -/
def b64decodeStr (s : String) : Option (List Nat) := b64decodeGo s.data

/-! ## Synthesis façade (`tts.py`)

`TTSClient` and `TTSLocalClient` have byte-for-byte identical `synthesize`
and `synthesize_stream` bodies; the authenticated/unauthenticated distinction
lives entirely in the `Client` they run on, so each is defined once. -/

def kPrompt : String := "prompt"
def kVoice : String := "voice"
def kFormat : String := "format"
def kText : String := "text"
def kAudio : String := "audio"
def epTts : String := "/tts"
def msgTextNonEmpty : String := "Text must be a non-empty string"
def msgTextWs : String := "Text cannot be empty or whitespace only"

/-- `synthesize_stream(text, voice="mamito", format="opus", **kwargs)`. -/
def synthesize_stream (c : Client) (net : Net) (text voice fmt : String) (kwargs : JDict) :
    Except SdkError (List Chunk) × List Request :=
  if !pyTruthy text then (.error (.validationError msgTextNonEmpty), [])
  else if (pyStrip text).length == 0 then (.error (.validationError msgTextWs), [])
  else
    let params := jdictUpdate [(kPrompt, .s text), (kVoice, .s voice), (kFormat, .s fmt)] kwargs
    c.stream_request net mGET epTts none (some params)

/-- `synthesize(text, voice="mamito", format="opus", **kwargs)`: validates,
drains `synthesize_stream` with the same arguments, joins the chunks,
base64-encodes, and echoes `text` and `format`. -/
def synthesize (c : Client) (net : Net) (text voice fmt : String) (kwargs : JDict) :
    Except SdkError JDict × List Request :=
  if !pyTruthy text then (.error (.validationError msgTextNonEmpty), [])
  else if (pyStrip text).length == 0 then (.error (.validationError msgTextWs), [])
  else
    match synthesize_stream c net text voice fmt kwargs with
    | (.error e, log) => (.error e, log)
    | (.ok chunks, log) =>
      (.ok [(kText, .s text), (kAudio, .s (b64encodeStr chunks.flatten)), (kFormat, .s fmt)], log)

/-! ## Transcription façade (`stt.py`) -/

def kAudioB64 : String := "audio_base64"
def kSampleRate : String := "sample_rate"
def epTranscribe : String := "/transcribe"
def msgAudioNonEmpty : String := "audio_base64 must be a non-empty string"
def msgAudioWs : String := "audio_base64 cannot be empty or whitespace only"
def msgAudioB64 : String := "audio_base64 must be valid base64 encoded data"

/-- `STTClient.transcribe` / `STTLocalClient.transcribe` (identical bodies):
validate non-empty → non-whitespace → valid base64, then POST the *original*
string under `audio_base64`. -/
def transcribe (c : Client) (net : Net) (audio_base64 : String) (kwargs : JDict) :
    Except SdkError JDict × List Request :=
  if !pyTruthy audio_base64 then (.error (.validationError msgAudioNonEmpty), [])
  else if (pyStrip audio_base64).length == 0 then (.error (.validationError msgAudioWs), [])
  else
    match b64decodeStr audio_base64 with
    | none => (.error (.validationError msgAudioB64), [])
    | some _ =>
      let data := jdictUpdate [(kAudioB64, .s audio_base64)] kwargs
      c.make_request net mPOST epTranscribe (some data) none

/-- A Python number argument: an `int`, or any non-`int` value. -/
inductive PyNum where
  | int (n : Int)
  | nonInt
  deriving DecidableEq, Repr

/-- The default `sample_rate` of the Wolof transcription variant. -/
def sampleRateDefault : PyNum := .int 16000

def msgSampleRate : String := "sample_rate must be a positive integer"

/-- Modelled from the spec: `STTWolofClient` / `STTWolofLocalClient` are
imported by `client.py` and `__init__.py` but their definitions are missing
from `src/senvoice/stt.py`.  Per the spec (§4.4 Transcription): "A specialized
variant accepts an additional `sampleRate` (default 16000), validated to be a
positive integer (`ValidationError` otherwise) and included in the request
body", with the same audio validation and `POST /transcribe` behaviour as
`transcribe`. -/
def wolofTranscribe (c : Client) (net : Net) (audio_base64 : String) (sample_rate : PyNum)
    (kwargs : JDict) : Except SdkError JDict × List Request :=
  if !pyTruthy audio_base64 then (.error (.validationError msgAudioNonEmpty), [])
  else if (pyStrip audio_base64).length == 0 then (.error (.validationError msgAudioWs), [])
  else
    match b64decodeStr audio_base64 with
    | none => (.error (.validationError msgAudioB64), [])
    | some _ =>
      match sample_rate with
      | .nonInt => (.error (.validationError msgSampleRate), [])
      | .int n =>
        if n ≤ 0 then (.error (.validationError msgSampleRate), [])
        else
          let data := jdictUpdate [(kAudioB64, .s audio_base64), (kSampleRate, .n n)] kwargs
          c.make_request net mPOST epTranscribe (some data) none

/-- Modelled from the spec: the Wolof variant's `transcribe` called without an
explicit `sampleRate` uses the default 16000. -/
def wolofTranscribeDefault (c : Client) (net : Net) (audio_base64 : String) (kwargs : JDict) :
    Except SdkError JDict × List Request :=
  wolofTranscribe c net audio_base64 sampleRateDefault kwargs

/-! ## Orchestrator (`client.py`) -/

def emptyStr : String := ""
def httpsPre : String := "https://"
def runpodSuffix : String := ".api.runpod.ai"

/-- `f"https://{endpoint_id}.api.runpod.ai"`. -/
def managedUrl (endpoint_id : String) : String := httpsPre ++ endpoint_id ++ runpodSuffix

/-- Per-logical-service state held by `SenVoice`: the stored endpoint id and
direct URL, the derived base URL and auth requirement, and the lazily cached
client (`None` until first use). -/
structure Slot where
  endpoint_id : Option String
  endpoint : Option String
  base_url : Option String
  needs_auth : Bool
  client : Option Client
  deriving DecidableEq, Repr

/-- `endpoint or (f"https://{endpoint_id}.api.runpod.ai" if endpoint_id else
None)` — a truthy direct URL wins; else a truthy id yields the managed URL;
else `None`. -/
def resolveBaseUrl (endpoint endpoint_id : Option String) : Option String :=
  if pyTruthyOpt endpoint then endpoint
  else if pyTruthyOpt endpoint_id then endpoint_id.map managedUrl
  else none

/-- `bool(endpoint_id and not endpoint)`. -/
def resolveNeedsAuth (endpoint endpoint_id : Option String) : Bool :=
  pyTruthyOpt endpoint_id && !pyTruthyOpt endpoint

/-- One service's slot as `SenVoice.__init__` derives it. -/
def mkSlot (endpoint endpoint_id : Option String) : Slot :=
  ⟨endpoint_id, endpoint, resolveBaseUrl endpoint endpoint_id,
    resolveNeedsAuth endpoint endpoint_id, none⟩

/-- The `SenVoice` orchestrator state. -/
structure SenVoiceState where
  api_key : Option String
  timeout : Int
  tts_fr : Slot
  tts_wo : Slot
  stt_fr : Slot
  stt_wo : Slot
  deriving DecidableEq, Repr

/-- `SenVoice.__init__`. -/
def SenVoice.init (api_key : Option String)
    (tts_fr_endpoint_id tts_wo_endpoint_id stt_fr_endpoint_id stt_wo_endpoint_id : Option String)
    (tts_fr_endpoint tts_wo_endpoint stt_fr_endpoint stt_wo_endpoint : Option String)
    (timeout : Int) : SenVoiceState :=
  ⟨api_key, timeout,
    mkSlot tts_fr_endpoint tts_fr_endpoint_id,
    mkSlot tts_wo_endpoint tts_wo_endpoint_id,
    mkSlot stt_fr_endpoint stt_fr_endpoint_id,
    mkSlot stt_wo_endpoint stt_wo_endpoint_id⟩

def msgApiKeyRunpod : String := "API key is required for RunPod endpoints"
def msgTtsFrRequired : String := "TTS French endpoint is required. Please provide tts_fr_endpoint_id or tts_fr_endpoint when initializing SenVoice"
def msgTtsWoRequired : String := "TTS Wolof endpoint is required. Please provide tts_wo_endpoint_id or tts_wo_endpoint when initializing SenVoice"
def msgSttFrRequired : String := "STT French endpoint is required. Please provide stt_fr_endpoint_id or stt_fr_endpoint when initializing SenVoice"
def msgSttWoRequired : String := "STT Wolof endpoint is required. Please provide stt_wo_endpoint_id or stt_wo_endpoint when initializing SenVoice"

/-- Shared body of the four service properties (`tts_fr`, `tts_wo`, `stt_fr`,
`stt_wo`): return the cached client if any; otherwise require a truthy base
URL, then construct the authenticated variant (requiring a truthy API key)
when `needs_auth`, else the local variant, and cache it. -/
def serviceClient (api_key : Option String) (timeout : Int) (missingMsg : String)
    (slot : Slot) : Except SdkError (Client × Slot) :=
  match slot.client with
  | some c => .ok (c, slot)
  | none =>
    if !pyTruthyOpt slot.base_url then .error (.validationError missingMsg)
    else
      let url := slot.base_url.getD emptyStr
      if slot.needs_auth then
        if !pyTruthyOpt api_key then .error (.validationError msgApiKeyRunpod)
        else
          match BaseClient.build (api_key.getD emptyStr) url timeout with
          | .error e => .error e
          | .ok c => .ok (c, { slot with client := some c })
      else
        let c := LocalClient.build url timeout
        .ok (c, { slot with client := some c })

def msgTtsFrEmpty : String := "TTS French endpoint ID cannot be empty"

/-- `SenVoice.configure_tts_fr`: rejects a falsy id; otherwise stores the id,
recomputes the base URL to the managed pattern, and drops the cached client.
(It does not touch `needs_auth`.) -/
def configure_tts_fr (sv : SenVoiceState) (endpoint_id : String) :
    Except SdkError SenVoiceState :=
  if !pyTruthy endpoint_id then .error (.validationError msgTtsFrEmpty)
  else .ok { sv with tts_fr := { sv.tts_fr with
    endpoint_id := some endpoint_id,
    base_url := some (managedUrl endpoint_id),
    client := none } }

/-! ### `ping_all` -/

def nameTtsFr : String := "tts_fr"
def nameTtsWo : String := "tts_wo"
def nameSttFr : String := "stt_fr"
def nameSttWo : String := "stt_wo"

/-- `{'error': str(result)}` — how `ping_all` records a captured exception. -/
def errDict (e : SdkError) : JDict := [(kError, .s e.message)]

/-- How `asyncio.gather(..., return_exceptions=True)` plus the zip loop in
`ping_all` records one awaited outcome. -/
def collapseOutcome : Except SdkError JDict → JDict
  | .ok d => d
  | .error e => errDict e

/-- The recorded entry for one bound client's ping. -/
def pingEntry (c : Client) (net : Net) : JDict := collapseOutcome (c.ping net).1

/-- One `if self._X_base_url: tasks.append(self.X.ping()); names.append(X)`
arm of `ping_all`: an unconfigured service is skipped; resolving the service
property may itself raise (that error propagates out of `ping_all`); the ping
outcome itself is captured into the entry. -/
def pingAllStep (api_key : Option String) (timeout : Int) (net : Net)
    (name missingMsg : String) (slot : Slot) (acc : List (String × JDict)) :
    Except SdkError (Slot × List (String × JDict)) :=
  if pyTruthyOpt slot.base_url then
    match serviceClient api_key timeout missingMsg slot with
    | .error e => .error e
    | .ok (c, slot2) => .ok (slot2, acc ++ [(name, pingEntry c net)])
  else .ok (slot, acc)

/-- `SenVoice.ping_all`: the four arms in source order, then the gather/zip
collection (which the per-arm steps already interleave, soundly, because the
pings are independent and deterministic against `net`). -/
def ping_all (sv : SenVoiceState) (net : Net) :
    Except SdkError (List (String × JDict)) := do
  let (_, a1) ← pingAllStep sv.api_key sv.timeout net nameTtsFr msgTtsFrRequired sv.tts_fr []
  let (_, a2) ← pingAllStep sv.api_key sv.timeout net nameTtsWo msgTtsWoRequired sv.tts_wo a1
  let (_, a3) ← pingAllStep sv.api_key sv.timeout net nameSttFr msgSttFrRequired sv.stt_fr a2
  let (_, a4) ← pingAllStep sv.api_key sv.timeout net nameSttWo msgSttWoRequired sv.stt_wo a3
  return a4

/-! ### Specification-side views used by the `ping_all` claim -/

/-- The four (name, missing-message, slot) rows of `ping_all`, in source
order. -/
def slotRows (sv : SenVoiceState) : List (String × String × Slot) :=
  [(nameTtsFr, msgTtsFrRequired, sv.tts_fr), (nameTtsWo, msgTtsWoRequired, sv.tts_wo),
   (nameSttFr, msgSttFrRequired, sv.stt_fr), (nameSttWo, msgSttWoRequired, sv.stt_wo)]

/-- The rows whose service has a (truthy) base URL configured. -/
def configuredRows (sv : SenVoiceState) : List (String × String × Slot) :=
  (slotRows sv).filter (fun row => pyTruthyOpt row.2.2.base_url)

/-- The gather outcome of one configured service: the error or payload of its
ping through the resolved (cached-or-fresh) client. -/
def serviceOutcome (api_key : Option String) (timeout : Int) (net : Net)
    (msg : String) (slot : Slot) : Except SdkError JDict :=
  match serviceClient api_key timeout msg slot with
  | .error e => .error e
  | .ok (c, _) => (c.ping net).1

/-- The service property can be resolved without raising: a client is already
cached, or no auth is needed, or a truthy API key is present. -/
def canBind (api_key : Option String) (slot : Slot) : Bool :=
  slot.client.isSome || !slot.needs_auth || pyTruthyOpt api_key

/-- Whether a gather outcome is an error (how `ping_all`'s zip loop branches
on `isinstance(result, Exception)`). -/
def exceptIsError : Except SdkError JDict → Bool
  | .error _ => true
  | .ok _ => false

/-- The entries one `ping_all` arm contributes: none when the service is
unconfigured, else the captured ping outcome keyed by the service name. -/
def stepEntries (api_key : Option String) (timeout : Int) (net : Net)
    (name msg : String) (slot : Slot) : List (String × JDict) :=
  if pyTruthyOpt slot.base_url then
    [(name, collapseOutcome (serviceOutcome api_key timeout net msg slot))]
  else []

/-! ## Concrete fixtures (used by witnesses and counterexamples) -/

def urlA : String := "http://localhost:9001"
def urlB : String := "http://localhost:9002"
def keyK : String := "k"
def idAbc : String := "abc123"
def vMamito : String := "mamito"
def fOpus : String := "opus"
def txtHi : String := "Bonjour"
def txtPong : String := "pong"
def txtUnauthorized : String := "unauthorized"
def msgBoom : String := "boom"
def b64Sample : String := "aGk="
def wsOnly : String := " "

def sampleChunks : List Chunk := [[1, 2], [], [3]]

def clientLocalA : Client := LocalClient.build urlA 30
def clientAuthA : Client := Client.authC keyK urlA 30

/-- Oracle: every request succeeds with a chunked 200 response whose body is
not valid JSON. -/
def netChunks : Net := fun _ => .response ⟨200, none, emptyStr, sampleChunks⟩

def resp401 : HttpResponse := ⟨401, none, txtUnauthorized, []⟩

/-- Oracle: every request is answered with HTTP 401. -/
def net401 : Net := fun _ => .response resp401

def respPong : HttpResponse := ⟨200, none, txtPong, []⟩

/-- Oracle: every request succeeds with a 200 whose body is plain text. -/
def netPong : Net := fun _ => .response respPong

/-- Oracle: connection failure for service A's ping, success elsewhere. -/
def netHalf : Net := fun req =>
  if req.url == urlA ++ epPing then .connectionFailure msgBoom
  else .response respPong

/-- Orchestrator with two local services configured (`tts_fr` at `urlA`,
`stt_wo` at `urlB`) and two unconfigured. -/
def svTwoLocal : SenVoiceState :=
  SenVoice.init none none none none none (some urlA) none none (some urlB) 30

/-- Orchestrator whose `tts_fr` is configured with a direct URL only. -/
def svDirectA : SenVoiceState :=
  SenVoice.init none none none none none (some urlA) none none none 30

/-! ## General lemmas -/

theorem b64indexOf_charOf (s : Nat) (h : s < 64) : b64indexOf (b64charOf s) = some s := by
  interval_cases s <;> decide

theorem b64charOf_ne_pad (s : Nat) (h : s < 64) : (b64charOf s == padChar) = false := by
  interval_cases s <;> decide

/-- Strict decoding inverts encoding on byte lists. -/
theorem b64_decode_encode (bs : List Nat) (h : ∀ b ∈ bs, b < 256) :
    b64decodeGo (b64encodeGo bs) = some bs := by
  induction bs using b64encodeGo.induct with
  | case1 => simp [b64encodeGo, b64decodeGo]
  | case2 b0 =>
    have hb0 : b0 < 256 := h b0 (by simp)
    have h1 : b0 / 4 < 64 := by omega
    have h2 : b0 % 4 * 16 < 64 := by omega
    simp [b64encodeGo, b64decodeGo, b64indexOf_charOf _ h1, b64indexOf_charOf _ h2,
      b64charOf_ne_pad _ h1, b64charOf_ne_pad _ h2]
    omega
  | case3 b0 b1 =>
    have hb0 : b0 < 256 := h b0 (by simp)
    have hb1 : b1 < 256 := h b1 (by simp)
    have h1 : b0 / 4 < 64 := by omega
    have h2 : b0 % 4 * 16 + b1 / 16 < 64 := by omega
    have h3 : b1 % 16 * 4 < 64 := by omega
    simp [b64encodeGo, b64decodeGo, b64indexOf_charOf _ h1, b64indexOf_charOf _ h2,
      b64indexOf_charOf _ h3, b64charOf_ne_pad _ h1, b64charOf_ne_pad _ h2,
      b64charOf_ne_pad _ h3]
    omega
  | case4 b0 b1 b2 rest ih =>
    have hb0 : b0 < 256 := h b0 (by simp)
    have hb1 : b1 < 256 := h b1 (by simp)
    have hb2 : b2 < 256 := h b2 (by simp)
    have hr : ∀ b ∈ rest, b < 256 := fun b hb => h b (by simp [hb])
    have h1 : b0 / 4 < 64 := by omega
    have h2 : b0 % 4 * 16 + b1 / 16 < 64 := by omega
    have h3 : b1 % 16 * 4 + b2 / 64 < 64 := by omega
    have h4 : b2 % 64 < 64 := by omega
    simp [b64encodeGo, b64decodeGo, b64indexOf_charOf _ h1, b64indexOf_charOf _ h2,
      b64indexOf_charOf _ h3, b64indexOf_charOf _ h4, b64charOf_ne_pad _ h1,
      b64charOf_ne_pad _ h2, b64charOf_ne_pad _ h3, b64charOf_ne_pad _ h4, ih hr]
    omega

/-- A buffered call issues exactly its one request. -/
theorem make_request_log (c : Client) (net : Net) (method endpoint : String)
    (data params : Option JDict) :
    (c.make_request net method endpoint data params).2
      = [mkReq c method endpoint data params] := rfl

/-- A streaming call issues exactly its one request. -/
theorem stream_request_log (c : Client) (net : Net) (method endpoint : String)
    (data params : Option JDict) :
    (c.stream_request net method endpoint data params).2
      = [mkReq c method endpoint data params] := rfl

/-- `++` on strings cancels on the right. -/
theorem string_append_cancel_right (a b e : String) (h : a ++ e = b ++ e) : a = b := by
  have h2 : (a ++ e).data = (b ++ e).data := congrArg String.data h
  simp only [String.data_append] at h2
  exact String.ext (List.append_cancel_right h2)

/-- `managedUrl` is left-associated string append. -/
theorem managedUrl_assoc (idv : String) :
    managedUrl idv = (httpsPre ++ idv) ++ runpodSuffix := rfl

/-- A string ending in the runpod suffix has no trailing slash to strip. -/
theorem rstripSlash_runpod (x : String) :
    rstripSlash (x ++ runpodSuffix) = x ++ runpodSuffix := by
  apply String.ext
  simp only [rstripSlash, String.data_append, List.reverse_append, List.dropWhile_append]
  have h1 : runpodSuffix.data.reverse.dropWhile (fun c => c == '/')
      = runpodSuffix.data.reverse := by decide
  have h2 : runpodSuffix.data.reverse.isEmpty = false := by decide
  rw [h1]
  simp [h2]

/-- Managed URLs are left unchanged by the constructor's `rstrip('/')`. -/
theorem rstripSlash_managedUrl (idv : String) :
    rstripSlash (managedUrl idv) = managedUrl idv := by
  rw [managedUrl_assoc]
  exact rstripSlash_runpod (httpsPre ++ idv)

/-- A managed URL is always truthy. -/
theorem managedUrl_truthy (idv : String) : pyTruthy (managedUrl idv) = true := by
  simp only [pyTruthy, Bool.not_eq_eq_eq_not, Bool.not_true]
  rw [Bool.eq_false_iff]
  intro hemp
  have h2 : managedUrl idv = emptyStr := (String.isEmpty_iff (managedUrl idv)).mp hemp
  have h3 := congrArg String.data h2
  simp only [managedUrl_assoc, String.data_append] at h3
  have h4 : httpsPre.data ≠ [] := by decide
  have h5 : emptyStr.data = [] := by decide
  rw [h5] at h3
  exact h4 (List.append_eq_nil.mp (List.append_eq_nil.mp h3).1).1

/-- The service property returns the cached client untouched. -/
theorem serviceClient_cached (api_key : Option String) (t : Int) (msg : String)
    (slot : Slot) (cl : Client) (hc : slot.client = some cl) :
    serviceClient api_key t msg slot = .ok (cl, slot) := by
  simp [serviceClient, hc]

/-- With no cache, a truthy base URL and no auth requirement, the property
builds and caches the local variant. -/
theorem serviceClient_fresh_local (api_key : Option String) (t : Int) (msg : String)
    (slot : Slot) (u : String) (hc : slot.client = none) (hb : slot.base_url = some u)
    (hu : pyTruthy u = true) (hna : slot.needs_auth = false) :
    serviceClient api_key t msg slot
      = .ok (LocalClient.build u t, { slot with client := some (LocalClient.build u t) }) := by
  have hto : pyTruthyOpt (some u) = true := hu
  simp [serviceClient, hc, hb, hna, hto]

/-- With no cache, a truthy base URL, an auth requirement and a truthy API
key, the property builds and caches the authenticated variant. -/
theorem serviceClient_fresh_auth (api_key : Option String) (t : Int) (msg : String)
    (slot : Slot) (u key : String) (hc : slot.client = none) (hb : slot.base_url = some u)
    (hu : pyTruthy u = true) (hna : slot.needs_auth = true)
    (hk : api_key = some key) (hkey : pyTruthy key = true) :
    serviceClient api_key t msg slot
      = .ok (Client.authC key (rstripSlash u) t,
          { slot with client := some (Client.authC key (rstripSlash u) t) }) := by
  have hto : pyTruthyOpt (some u) = true := hu
  have hko : pyTruthyOpt (some key) = true := hkey
  simp [serviceClient, hc, hb, hna, hk, hto, hko, BaseClient.build, hkey, emptyStr]

/-! ## Theorems for the claims -/

/-- C5: for every `text` that is empty or whitespace-only, `synthesize` and
`synthesize_stream` both fail with `ValidationError` and issue zero network
requests. -/
theorem claim_C5_empty_text_no_network (c : Client) (net : Net) (text voice fmt : String)
    (kwargs : JDict) (h : (pyStrip text).length = 0) :
    (∃ m, synthesize c net text voice fmt kwargs = (.error (.validationError m), [])) ∧
    (∃ m, synthesize_stream c net text voice fmt kwargs = (.error (.validationError m), [])) := by
  by_cases he : text.isEmpty
  · exact ⟨⟨msgTextNonEmpty, by simp [synthesize, pyTruthy, he]⟩,
      ⟨msgTextNonEmpty, by simp [synthesize_stream, pyTruthy, he]⟩⟩
  · exact ⟨⟨msgTextWs, by simp [synthesize, pyTruthy, he, h]⟩,
      ⟨msgTextWs, by simp [synthesize_stream, pyTruthy, he, h]⟩⟩

/-- C5 witness: the theorem instantiated at whitespace-only text. -/
theorem claim_C5_witness :
    (∃ m, synthesize clientLocalA netChunks wsOnly vMamito fOpus []
        = (.error (.validationError m), [])) ∧
    (∃ m, synthesize_stream clientLocalA netChunks wsOnly vMamito fOpus []
        = (.error (.validationError m), [])) :=
  claim_C5_empty_text_no_network clientLocalA netChunks wsOnly vMamito fOpus [] (by decide)

/-- C9: a successful (status < 400) response whose body is not valid JSON
makes the buffered call return `{"response": <raw text>}` instead of failing,
for any client — authenticated and unauthenticated alike. -/
theorem claim_C9_nonjson_wrapped (c : Client) (net : Net) (method endpoint : String)
    (data params : Option JDict) (r : HttpResponse)
    (hnet : net (mkReq c method endpoint data params) = .response r)
    (hst : r.status < 400) (hj : r.json = none) :
    c.make_request net method endpoint data params
      = (.ok [(kResponse, .s r.text)], [mkReq c method endpoint data params]) := by
  have h401 : (r.status == 401) = false := by simp; omega
  have hge : ¬(r.status ≥ 400) := by omega
  simp only [Client.make_request]
  rw [hnet]
  simp [makeRequestResult, h401, hge, hj]

/-- C9 witness: both variants instantiated against a plain-text 200. -/
theorem claim_C9_witness :
    (clientLocalA.make_request netPong mGET epPing none none
      = (.ok [(kResponse, .s respPong.text)], [mkReq clientLocalA mGET epPing none none])) ∧
    (clientAuthA.make_request netPong mGET epPing none none
      = (.ok [(kResponse, .s respPong.text)], [mkReq clientAuthA mGET epPing none none])) :=
  ⟨claim_C9_nonjson_wrapped clientLocalA netPong mGET epPing none none respPong rfl
      (by decide) rfl,
    claim_C9_nonjson_wrapped clientAuthA netPong mGET epPing none none respPong rfl
      (by decide) rfl⟩

/-- C3 counterexample: a *streaming* call through the local (unauthenticated)
client that receives HTTP 401 fails with `AuthenticationError`, not
`APIError` — refuting "never with AuthenticationError ... for both buffered
execute calls and streaming calls". -/
theorem claim_C3_counterexample :
    (synthesize_stream clientLocalA net401 txtHi vMamito fOpus []).1
      = .error (.authenticationError msgAuthFailed) := by decide

/-- C3 amended: through the Unauthenticated variant, an HTTP 401 response
makes *buffered* calls fail with `APIError` carrying status 401 (never
`AuthenticationError`), while *streaming* calls fail with
`AuthenticationError`: `_stream_request` applies the 401→auth rule to every
variant it is mixed into. -/
theorem claim_C3_local_401 (base_url : String) (t : Int) (net : Net)
    (method endpoint : String) (data params : Option JDict) (r : HttpResponse)
    (hnet : net (mkReq (.localC base_url t) method endpoint data params) = .response r)
    (h401 : r.status = 401) :
    ((Client.localC base_url t).make_request net method endpoint data params).1
      = .error (.apiError (errorBodyMessage r) (some 401)) ∧
    ((Client.localC base_url t).stream_request net method endpoint data params).1
      = .error (.authenticationError msgAuthFailed) := by
  constructor
  · simp only [Client.make_request]
    rw [hnet]
    simp [makeRequestResult, Client.isAuth, h401]
  · simp only [Client.stream_request]
    rw [hnet]
    simp [streamRequestResult, h401]

/-- C3 witness for the amended statement, at a concrete 401 oracle. -/
theorem claim_C3_witness :
    ((Client.localC urlA 30).make_request net401 mGET epPing none none).1
      = .error (.apiError (errorBodyMessage resp401) (some 401)) ∧
    ((Client.localC urlA 30).stream_request net401 mGET epPing none none).1
      = .error (.authenticationError msgAuthFailed) :=
  claim_C3_local_401 urlA 30 net401 mGET epPing none none resp401 rfl rfl

/-- C6: `transcribe` validates `audio_base64` in a fixed order — non-empty,
then non-empty after trimming, then valid base64 — failing with the
corresponding `ValidationError` before any network request; when all checks
pass, the *original* base64 string (not its decoded bytes) is sent under
`audio_base64` in a buffered `POST /transcribe`. -/
theorem claim_C6_transcribe_validation_order (c : Client) (net : Net) (s : String)
    (kwargs : JDict) :
    (s.isEmpty = true →
      transcribe c net s kwargs = (.error (.validationError msgAudioNonEmpty), [])) ∧
    (s.isEmpty = false → (pyStrip s).length = 0 →
      transcribe c net s kwargs = (.error (.validationError msgAudioWs), [])) ∧
    (s.isEmpty = false → (pyStrip s).length ≠ 0 → b64decodeStr s = none →
      transcribe c net s kwargs = (.error (.validationError msgAudioB64), [])) ∧
    (∀ bs, s.isEmpty = false → (pyStrip s).length ≠ 0 → b64decodeStr s = some bs →
      transcribe c net s kwargs
        = c.make_request net mPOST epTranscribe
            (some (jdictUpdate [(kAudioB64, .s s)] kwargs)) none ∧
      (transcribe c net s kwargs).2
        = [mkReq c mPOST epTranscribe
            (some (jdictUpdate [(kAudioB64, .s s)] kwargs)) none] ∧
      (jdictHas kwargs kAudioB64 = false →
        jdictGet (jdictUpdate [(kAudioB64, .s s)] kwargs) kAudioB64 = some (.s s))) := by
  refine ⟨fun he => ?_, fun he hw => ?_, fun he hw hb => ?_, fun bs he hw hb => ?_⟩
  · simp [transcribe, pyTruthy, he]
  · simp [transcribe, pyTruthy, he, hw]
  · simp [transcribe, pyTruthy, he, hw, hb]
  · refine ⟨by simp [transcribe, pyTruthy, he, hw, hb], ?_, fun hk => ?_⟩
    · simp [transcribe, pyTruthy, he, hw, hb, make_request_log]
    · have hg : jdictGet kwargs kAudioB64 = none := by
        cases hgk : jdictGet kwargs kAudioB64 with
        | none => rfl
        | some v => simp [jdictHas, hgk] at hk
      simp [jdictUpdate, jdictGet, hg]

/-- C6 witness: the send clause instantiated at a concrete valid base64
string. -/
theorem claim_C6_witness :
    transcribe clientLocalA netPong b64Sample []
      = clientLocalA.make_request netPong mPOST epTranscribe
          (some (jdictUpdate [(kAudioB64, .s b64Sample)] [])) none ∧
    (transcribe clientLocalA netPong b64Sample []).2
      = [mkReq clientLocalA mPOST epTranscribe
          (some (jdictUpdate [(kAudioB64, .s b64Sample)] [])) none] ∧
    (jdictHas [] kAudioB64 = false →
      jdictGet (jdictUpdate [(kAudioB64, .s b64Sample)] []) kAudioB64
        = some (.s b64Sample)) :=
  (claim_C6_transcribe_validation_order clientLocalA netPong b64Sample []).2.2.2
    [104, 105] (by decide) (by decide) (by decide)

/-- C4: the specialized Wolof transcription variant (modelled from the spec,
its class being absent from `src/`) takes `sample_rate` defaulting to 16000;
every non-positive or non-integer `sample_rate` makes it fail with
`ValidationError` and zero network requests; a valid one is included in the
request body under `sample_rate`. -/
theorem claim_C4_wolof_sample_rate (c : Client) (net : Net) (s : String) (kwargs : JDict) :
    (∀ n : Int, n ≤ 0 →
      ∃ m, wolofTranscribe c net s (.int n) kwargs = (.error (.validationError m), [])) ∧
    (∃ m, wolofTranscribe c net s .nonInt kwargs = (.error (.validationError m), [])) ∧
    (sampleRateDefault = .int 16000 ∧
      wolofTranscribeDefault c net s kwargs = wolofTranscribe c net s (.int 16000) kwargs) ∧
    (∀ (n : Int) (bs : List Nat), 0 < n → s.isEmpty = false → (pyStrip s).length ≠ 0 →
      b64decodeStr s = some bs →
      wolofTranscribe c net s (.int n) kwargs
        = c.make_request net mPOST epTranscribe
            (some (jdictUpdate [(kAudioB64, .s s), (kSampleRate, .n n)] kwargs)) none ∧
      (jdictHas kwargs kSampleRate = false →
        jdictGet (jdictUpdate [(kAudioB64, .s s), (kSampleRate, .n n)] kwargs) kSampleRate
          = some (.n n))) := by
  have herr : ∀ sr : PyNum, (sr = .nonInt ∨ ∃ n : Int, sr = .int n ∧ n ≤ 0) →
      ∃ m, wolofTranscribe c net s sr kwargs = (.error (.validationError m), []) := by
    intro sr hsr
    by_cases he : s.isEmpty
    · exact ⟨msgAudioNonEmpty, by simp [wolofTranscribe, pyTruthy, he]⟩
    · by_cases hw : (pyStrip s).length = 0
      · exact ⟨msgAudioWs, by simp [wolofTranscribe, pyTruthy, he, hw]⟩
      · cases hb : b64decodeStr s with
        | none => exact ⟨msgAudioB64, by simp [wolofTranscribe, pyTruthy, he, hw, hb]⟩
        | some bs =>
          rcases hsr with hni | ⟨n, hn, hle⟩
          · exact ⟨msgSampleRate, by simp [wolofTranscribe, pyTruthy, he, hw, hb, hni]⟩
          · exact ⟨msgSampleRate, by simp [wolofTranscribe, pyTruthy, he, hw, hb, hn, hle]⟩
  refine ⟨fun n hn => herr _ (.inr ⟨n, rfl, hn⟩), herr _ (.inl rfl), ⟨rfl, rfl⟩,
    fun n bs hn he hw hb => ⟨?_, fun hk => ?_⟩⟩
  · have hle : ¬(n ≤ 0) := by omega
    simp [wolofTranscribe, pyTruthy, he, hw, hb, hle]
  · have hg : jdictGet kwargs kSampleRate = none := by
      cases hgk : jdictGet kwargs kSampleRate with
      | none => rfl
      | some v => simp [jdictHas, hgk] at hk
    have hne : (kAudioB64 == kSampleRate) = false := by decide
    cases hga : jdictGet kwargs kAudioB64 <;>
      simp [jdictUpdate, jdictGet, hg, hga, hne]

/-- C4 witness: rejection at `sample_rate = 0` and non-int, and inclusion at
the default 16000, on a concrete valid audio string. -/
theorem claim_C4_witness :
    (∃ m, wolofTranscribe clientLocalA netPong b64Sample (.int 0) []
        = (.error (.validationError m), [])) ∧
    (∃ m, wolofTranscribe clientLocalA netPong b64Sample .nonInt []
        = (.error (.validationError m), [])) ∧
    wolofTranscribe clientLocalA netPong b64Sample (.int 16000) []
      = clientLocalA.make_request netPong mPOST epTranscribe
          (some (jdictUpdate [(kAudioB64, .s b64Sample), (kSampleRate, .n 16000)] [])) none :=
  ⟨(claim_C4_wolof_sample_rate clientLocalA netPong b64Sample []).1 0 (by decide),
    (claim_C4_wolof_sample_rate clientLocalA netPong b64Sample []).2.1,
    ((claim_C4_wolof_sample_rate clientLocalA netPong b64Sample []).2.2.2 16000
      [104, 105] (by decide) (by decide) (by decide) (by decide)).1⟩

/-- C1: for valid (non-empty, non-whitespace) text and identical arguments,
`synthesize` issues exactly the one streaming request that
`synthesize_stream` issues; and whenever the stream yields chunks, the
returned mapping echoes `text` and `format` and carries as `audio` the
base64 encoding of the in-order chunk concatenation — which decodes back to
exactly that concatenation. -/
theorem claim_C1_synthesize_roundtrip (c : Client) (net : Net) (text voice fmt : String)
    (kwargs : JDict) (h1 : text.isEmpty = false) (h2 : (pyStrip text).length ≠ 0) :
    (synthesize c net text voice fmt kwargs).2
        = (synthesize_stream c net text voice fmt kwargs).2 ∧
    (synthesize_stream c net text voice fmt kwargs).2
        = [mkReq c mGET epTts none
            (some (jdictUpdate [(kPrompt, .s text), (kVoice, .s voice), (kFormat, .s fmt)]
              kwargs))] ∧
    (∀ chunks log, synthesize_stream c net text voice fmt kwargs = (.ok chunks, log) →
      synthesize c net text voice fmt kwargs
        = (.ok [(kText, .s text), (kAudio, .s (b64encodeStr chunks.flatten)),
            (kFormat, .s fmt)], log) ∧
      ((∀ b ∈ chunks.flatten, b < 256) →
        b64decodeStr (b64encodeStr chunks.flatten) = some chunks.flatten)) := by
  refine ⟨?_, ?_, fun chunks log hs => ⟨?_, fun hbytes => ?_⟩⟩
  · simp only [synthesize, synthesize_stream, pyTruthy, h1, h2]
    simp only [Bool.not_false, beq_iff_eq, h2, if_false, if_true, Bool.not_true]
    cases hres : Client.stream_request c net mGET epTts none
        (some (jdictUpdate [(kPrompt, .s text), (kVoice, .s voice), (kFormat, .s fmt)]
          kwargs)) with
    | mk res log2 => cases res <;> simp [hres]
  · simp only [synthesize_stream, pyTruthy, h1, h2]
    simp only [Bool.not_false, beq_iff_eq, h2, if_false, if_true, Bool.not_true]
    exact stream_request_log c net mGET epTts none _
  · simp only [synthesize, pyTruthy, h1, h2] at hs ⊢
    simp only [Bool.not_false, beq_iff_eq, h2, if_false, if_true, Bool.not_true] at hs ⊢
    rw [hs]
    simp
  · have : b64decodeStr (b64encodeStr chunks.flatten)
        = b64decodeGo (b64encodeGo chunks.flatten) := rfl
    rw [this]
    exact b64_decode_encode chunks.flatten hbytes

/-- C1 witness: against an oracle returning chunks `[1,2]`, `[]`, `[3]`, the
stream yields `[[1,2],[3]]` and `synthesize` returns their base64-encoded
concatenation, which decodes back to `[1,2,3]`. -/
theorem claim_C1_witness :
    synthesize clientLocalA netChunks txtHi vMamito fOpus []
      = (.ok [(kText, .s txtHi),
          (kAudio, .s (b64encodeStr ([[1, 2], [3]] : List Chunk).flatten)),
          (kFormat, .s fOpus)],
         (synthesize_stream clientLocalA netChunks txtHi vMamito fOpus []).2) ∧
    b64decodeStr (b64encodeStr ([[1, 2], [3]] : List Chunk).flatten)
      = some ([[1, 2], [3]] : List Chunk).flatten := by
  have h := (claim_C1_synthesize_roundtrip clientLocalA netChunks txtHi vMamito fOpus []
    (by decide) (by decide)).2.2 [[1, 2], [3]]
    (synthesize_stream clientLocalA netChunks txtHi vMamito fOpus []).2 (by decide)
  exact ⟨(h.1), h.2 (by decide)⟩

/-- C7: per-service endpoint resolution at construction — a truthy direct
endpoint always wins (even when an identifier is also given); only an
identifier yields `https://{identifier}.api.runpod.ai`; neither yields no
base URL; and `needs_auth` holds iff an identifier was given and no direct
endpoint was; each of the four service slots of `SenVoice.__init__` is
exactly this resolution. -/
theorem claim_C7_endpoint_resolution (endpoint endpoint_id : Option String) :
    ((mkSlot endpoint endpoint_id).base_url = resolveBaseUrl endpoint endpoint_id) ∧
    ((mkSlot endpoint endpoint_id).needs_auth = resolveNeedsAuth endpoint endpoint_id) ∧
    (pyTruthyOpt endpoint = true → resolveBaseUrl endpoint endpoint_id = endpoint) ∧
    (pyTruthyOpt endpoint = false → ∀ idv, endpoint_id = some idv → pyTruthy idv = true →
      resolveBaseUrl endpoint endpoint_id = some (managedUrl idv)) ∧
    (pyTruthyOpt endpoint = false → pyTruthyOpt endpoint_id = false →
      resolveBaseUrl endpoint endpoint_id = none) ∧
    ((mkSlot endpoint endpoint_id).needs_auth = true ↔
      pyTruthyOpt endpoint_id = true ∧ pyTruthyOpt endpoint = false) ∧
    (∀ api_key i1 i2 i3 i4 e1 e2 e3 e4 t,
      (SenVoice.init api_key i1 i2 i3 i4 e1 e2 e3 e4 t).tts_fr = mkSlot e1 i1 ∧
      (SenVoice.init api_key i1 i2 i3 i4 e1 e2 e3 e4 t).tts_wo = mkSlot e2 i2 ∧
      (SenVoice.init api_key i1 i2 i3 i4 e1 e2 e3 e4 t).stt_fr = mkSlot e3 i3 ∧
      (SenVoice.init api_key i1 i2 i3 i4 e1 e2 e3 e4 t).stt_wo = mkSlot e4 i4) := by
  refine ⟨rfl, rfl, fun he => ?_, fun he idv hid hidv => ?_, fun he hid => ?_, ?_,
    fun api_key i1 i2 i3 i4 e1 e2 e3 e4 t => ⟨rfl, rfl, rfl, rfl⟩⟩
  · simp [resolveBaseUrl, he]
  · have h3 : pyTruthyOpt (some idv) = true := hidv
    simp [resolveBaseUrl, he, hid, h3]
  · simp [resolveBaseUrl, he, hid]
  · constructor
    · intro hna
      simp only [mkSlot, resolveNeedsAuth] at hna
      exact ⟨(Bool.and_eq_true _ _ |>.mp hna).1, by
        have := (Bool.and_eq_true _ _ |>.mp hna).2
        simpa using this⟩
    · intro ⟨hi, he⟩
      simp [mkSlot, resolveNeedsAuth, hi, he]

/-- C7 witness: the resolution facts instantiated at concrete
configurations. -/
theorem claim_C7_witness :
    resolveBaseUrl (some urlA) (some idAbc) = some urlA ∧
    resolveBaseUrl none (some idAbc) = some (managedUrl idAbc) ∧
    resolveBaseUrl none none = none ∧
    (mkSlot none (some idAbc)).needs_auth = true ∧
    (mkSlot (some urlA) (some idAbc)).needs_auth = false := by
  refine ⟨(claim_C7_endpoint_resolution (some urlA) (some idAbc)).2.2.1 (by decide),
    (claim_C7_endpoint_resolution none (some idAbc)).2.2.2.1 (by decide) idAbc rfl (by decide),
    (claim_C7_endpoint_resolution none none).2.2.2.2.1 (by decide) (by decide),
    (claim_C7_endpoint_resolution none (some idAbc)).2.2.2.2.2.1.mpr
      ⟨by decide, by decide⟩, ?_⟩
  have h := (claim_C7_endpoint_resolution (some urlA) (some idAbc)).2.2.2.2.2.1
  by_contra hne
  have : (mkSlot (some urlA) (some idAbc)).needs_auth = true := by
    cases hx : (mkSlot (some urlA) (some idAbc)).needs_auth with
    | true => rfl
    | false => exact absurd hx hne
  exact absurd (h.mp this).2 (by decide)

/-- A client whose base URL is `target` sends every request to
`target ++ endpoint`, and never to `oldBase ++ endpoint` for a different
`oldBase`. -/
theorem client_url_facts (cl : Client) (target : String) (h : cl.base_url = target) :
    (∀ method endpoint data params,
      (mkReq cl method endpoint data params).url = target ++ endpoint) ∧
    (∀ oldBase method endpoint data params, oldBase ≠ target →
      (mkReq cl method endpoint data params).url ≠ oldBase ++ endpoint) := by
  refine ⟨fun m e d p => by simp [mkReq, h], fun ob m e d p hne hcontra => ?_⟩
  simp only [mkReq, h] at hcontra
  exact hne (string_append_cancel_right ob target e hcontra.symm)

/-- C8: reconfiguring `tts_fr` with a new endpoint identifier stores the
managed base URL and discards the cached client, so the next property access
builds a fresh client bound to the new base URL — and every request through
it targets the new base URL, never a different (old) one; a falsy identifier
is rejected with `ValidationError`. -/
theorem claim_C8_reconfigure_targets_new_url (sv : SenVoiceState) (idNew : String) :
    configure_tts_fr sv emptyStr = .error (.validationError msgTtsFrEmpty) ∧
    (pyTruthy idNew = true →
      ∃ sv2, configure_tts_fr sv idNew = .ok sv2 ∧
        sv2.tts_fr.endpoint_id = some idNew ∧
        sv2.tts_fr.base_url = some (managedUrl idNew) ∧
        sv2.tts_fr.client = none ∧
        sv2.tts_fr.needs_auth = sv.tts_fr.needs_auth ∧
        sv2.api_key = sv.api_key ∧ sv2.timeout = sv.timeout ∧
        (∀ cl slot2,
          serviceClient sv2.api_key sv2.timeout msgTtsFrRequired sv2.tts_fr
            = .ok (cl, slot2) →
          cl.base_url = managedUrl idNew ∧
          (∀ method endpoint data params,
            (mkReq cl method endpoint data params).url = managedUrl idNew ++ endpoint) ∧
          (∀ oldBase method endpoint data params, oldBase ≠ managedUrl idNew →
            (mkReq cl method endpoint data params).url ≠ oldBase ++ endpoint))) := by
  constructor
  · have hf : pyTruthy emptyStr = false := by decide
    simp [configure_tts_fr, hf]
  · intro hid
    refine ⟨{ sv with tts_fr := { sv.tts_fr with
        endpoint_id := some idNew,
        base_url := some (managedUrl idNew),
        client := none } }, by simp [configure_tts_fr, hid], rfl, rfl, rfl, rfl, rfl, rfl, ?_⟩
    intro cl slot2 hok
    have hmu : pyTruthyOpt (some (managedUrl idNew)) = true := managedUrl_truthy idNew
    cases hna : sv.tts_fr.needs_auth with
    | false =>
      rw [serviceClient_fresh_local sv.api_key sv.timeout msgTtsFrRequired _
        (managedUrl idNew) rfl rfl (managedUrl_truthy idNew) (by simp [hna])] at hok
      simp only [Except.ok.injEq, Prod.mk.injEq] at hok
      obtain ⟨hcl, -⟩ := hok
      have hurl : cl.base_url = managedUrl idNew := by
        rw [← hcl]
        simp [LocalClient.build, Client.base_url, rstripSlash_managedUrl]
      exact ⟨hurl, (client_url_facts cl _ hurl).1, (client_url_facts cl _ hurl).2⟩
    | true =>
      cases hk : sv.api_key with
      | none =>
        simp [serviceClient, hna, hk, hmu, pyTruthyOpt, managedUrl_truthy] at hok
      | some key =>
        cases hkey : pyTruthy key with
        | false =>
          have hko : pyTruthyOpt (some key) = false := hkey
          simp [serviceClient, hna, hk, hmu, hko, BaseClient.build, hkey] at hok
        | true =>
          rw [serviceClient_fresh_auth sv.api_key sv.timeout msgTtsFrRequired _
            (managedUrl idNew) key rfl rfl (managedUrl_truthy idNew) (by simp [hna])
            hk hkey] at hok
          simp only [Except.ok.injEq, Prod.mk.injEq] at hok
          obtain ⟨hcl, -⟩ := hok
          have hurl : cl.base_url = managedUrl idNew := by
            rw [← hcl]
            simp [Client.base_url, rstripSlash_managedUrl]
          exact ⟨hurl, (client_url_facts cl _ hurl).1, (client_url_facts cl _ hurl).2⟩

/-- C8 witness: reconfiguring the direct-URL orchestrator to `abc123` makes
the freshly built client target the managed URL. -/
theorem claim_C8_witness :
    configure_tts_fr svDirectA emptyStr = .error (.validationError msgTtsFrEmpty) ∧
    ∃ sv2, configure_tts_fr svDirectA idAbc = .ok sv2 ∧
      sv2.tts_fr.endpoint_id = some idAbc ∧
      sv2.tts_fr.base_url = some (managedUrl idAbc) ∧
      sv2.tts_fr.client = none ∧
      sv2.tts_fr.needs_auth = svDirectA.tts_fr.needs_auth ∧
      sv2.api_key = svDirectA.api_key ∧ sv2.timeout = svDirectA.timeout ∧
      (∀ cl slot2,
        serviceClient sv2.api_key sv2.timeout msgTtsFrRequired sv2.tts_fr = .ok (cl, slot2) →
        cl.base_url = managedUrl idAbc ∧
        (∀ method endpoint data params,
          (mkReq cl method endpoint data params).url = managedUrl idAbc ++ endpoint) ∧
        (∀ oldBase method endpoint data params, oldBase ≠ managedUrl idAbc →
          (mkReq cl method endpoint data params).url ≠ oldBase ++ endpoint)) :=
  ⟨(claim_C8_reconfigure_targets_new_url svDirectA idAbc).1,
    (claim_C8_reconfigure_targets_new_url svDirectA idAbc).2 (by decide)⟩

/-- C10: a service first configured with a direct endpoint URL has
`needs_auth = false`; reconfiguring it with a managed identifier does not
recompute the flag, so the next access builds the *unauthenticated* client
(no credential check, no `Authorization` header) against the managed URL. -/
theorem claim_C10_stale_auth_flag (api_key i1 i2 i3 i4 e2 e3 e4 : Option String)
    (url idNew : String) (t : Int) (hurl : pyTruthy url = true)
    (hid : pyTruthy idNew = true) :
    (SenVoice.init api_key i1 i2 i3 i4 (some url) e2 e3 e4 t).tts_fr.needs_auth = false ∧
    ∃ sv2,
      configure_tts_fr (SenVoice.init api_key i1 i2 i3 i4 (some url) e2 e3 e4 t) idNew
        = .ok sv2 ∧
      sv2.tts_fr.needs_auth = false ∧
      sv2.tts_fr.base_url = some (managedUrl idNew) ∧
      serviceClient sv2.api_key sv2.timeout msgTtsFrRequired sv2.tts_fr
        = .ok (Client.localC (managedUrl idNew) t,
            { sv2.tts_fr with client := some (Client.localC (managedUrl idNew) t) }) ∧
      (Client.localC (managedUrl idNew) t).headers = [(hdrContentType, hdrAppJson)] ∧
      (∀ v, (hdrAuthorization, v) ∈ (Client.localC (managedUrl idNew) t).headers → False) := by
  have hto : pyTruthyOpt (some url) = true := hurl
  have hna : (SenVoice.init api_key i1 i2 i3 i4 (some url) e2 e3 e4 t).tts_fr.needs_auth
      = false := by
    simp [SenVoice.init, mkSlot, resolveNeedsAuth, hto]
  refine ⟨hna, { SenVoice.init api_key i1 i2 i3 i4 (some url) e2 e3 e4 t with
      tts_fr := { (SenVoice.init api_key i1 i2 i3 i4 (some url) e2 e3 e4 t).tts_fr with
        endpoint_id := some idNew,
        base_url := some (managedUrl idNew),
        client := none } },
    by simp [configure_tts_fr, hid], by simpa using hna, rfl, ?_, rfl, ?_⟩
  · refine Eq.trans (serviceClient_fresh_local api_key t msgTtsFrRequired _
      (managedUrl idNew) rfl rfl (managedUrl_truthy idNew) (by simpa using hna)) ?_
    simp [LocalClient.build, rstripSlash_managedUrl]
  · intro v hv
    have : (hdrAuthorization, v) ∈ [(hdrContentType, hdrAppJson)] := by
      simpa [Client.headers] using hv
    simp at this
    exact absurd this.1 (by decide)

/-- C10 witness: instantiated at a concrete direct URL and identifier. -/
theorem claim_C10_witness :
    (SenVoice.init none none none none none (some urlA) none none none 30).tts_fr.needs_auth
      = false ∧
    ∃ sv2,
      configure_tts_fr (SenVoice.init none none none none none (some urlA) none none none 30)
          idAbc = .ok sv2 ∧
      sv2.tts_fr.needs_auth = false ∧
      sv2.tts_fr.base_url = some (managedUrl idAbc) ∧
      serviceClient sv2.api_key sv2.timeout msgTtsFrRequired sv2.tts_fr
        = .ok (Client.localC (managedUrl idAbc) 30,
            { sv2.tts_fr with client := some (Client.localC (managedUrl idAbc) 30) }) ∧
      (Client.localC (managedUrl idAbc) 30).headers = [(hdrContentType, hdrAppJson)] ∧
      (∀ v, (hdrAuthorization, v) ∈ (Client.localC (managedUrl idAbc) 30).headers → False) :=
  claim_C10_stale_auth_flag none none none none none none none none urlA idAbc 30
    (by decide) (by decide)

/-- Counting a predicate on the right component of a zip. -/
theorem countP_zip_right {α β : Type} (l : List α) (m : List β) (p : β → Bool)
    (h : l.length = m.length) :
    (l.zip m).countP (fun z => p z.2) = m.countP p := by
  induction l generalizing m with
  | nil => cases m with
    | nil => simp
    | cons b m => simp at h
  | cons a l ih => cases m with
    | nil => simp at h
    | cons b m =>
      simp only [List.zip_cons_cons, List.countP_cons]
      rw [ih m (by simpa using h)]

/-- The service property resolves whenever the service is configured and
bindable. -/
theorem serviceClient_ok (api : Option String) (t : Int) (msg : String) (slot : Slot)
    (hcfg : pyTruthyOpt slot.base_url = true) (hcb : canBind api slot = true) :
    ∃ c slot2, serviceClient api t msg slot = .ok (c, slot2) := by
  cases hc : slot.client with
  | some cl => exact ⟨cl, slot, serviceClient_cached api t msg slot cl hc⟩
  | none =>
    cases hbu : slot.base_url with
    | none => simp [pyTruthyOpt, hbu] at hcfg
    | some u =>
      have hu : pyTruthy u = true := by simpa [pyTruthyOpt, hbu] using hcfg
      cases hna : slot.needs_auth with
      | false => exact ⟨_, _, serviceClient_fresh_local api t msg slot u hc hbu hu hna⟩
      | true =>
        have hk : pyTruthyOpt api = true := by
          simpa [canBind, hc, hna] using hcb
        cases hks : api with
        | none => simp [pyTruthyOpt, hks] at hk
        | some key =>
          have hkey : pyTruthy key = true := by simpa [pyTruthyOpt, hks] using hk
          exact ⟨_, _, serviceClient_fresh_auth (some key) t msg slot u key hc hbu hu hna
            rfl hkey⟩

/-- One `ping_all` arm appends exactly its `stepEntries`. -/
theorem pingAllStep_entries (api : Option String) (t : Int) (net : Net)
    (name msg : String) (slot : Slot) (acc : List (String × JDict))
    (h : pyTruthyOpt slot.base_url = true → canBind api slot = true) :
    ∃ slot2, pingAllStep api t net name msg slot acc
      = .ok (slot2, acc ++ stepEntries api t net name msg slot) := by
  cases hcfg : pyTruthyOpt slot.base_url with
  | false => exact ⟨slot, by simp [pingAllStep, hcfg, stepEntries]⟩
  | true =>
    obtain ⟨c, slot2, hok⟩ := serviceClient_ok api t msg slot hcfg (h hcfg)
    exact ⟨slot2, by simp [pingAllStep, hcfg, hok, stepEntries, serviceOutcome, pingEntry]⟩

/-- C2: when every configured service can be bound, `ping_all` returns one
entry per configured service (in source order), each entry independently
carrying either that service's successful ping payload or its collapsed
error; unconfigured services are omitted, no failure removes a sibling's
entry, and pairing each entry with its own outcome, exactly K of the N
entries carry an error outcome when exactly K of the N configured pings
fail. -/
theorem claim_C2_ping_all_isolation (sv : SenVoiceState) (net : Net)
    (hb : ∀ row ∈ slotRows sv, pyTruthyOpt row.2.2.base_url = true →
      canBind sv.api_key row.2.2 = true) :
    ∃ l, ping_all sv net = .ok l ∧
      l = (configuredRows sv).map
        (fun row => (row.1,
          collapseOutcome (serviceOutcome sv.api_key sv.timeout net row.2.1 row.2.2))) ∧
      l.length = (configuredRows sv).length ∧
      l.map Prod.fst = (configuredRows sv).map (fun row => row.1) ∧
      (∀ K, (configuredRows sv).countP
          (fun row => exceptIsError (serviceOutcome sv.api_key sv.timeout net row.2.1 row.2.2))
            = K →
        (l.zip ((configuredRows sv).map
          (fun row => serviceOutcome sv.api_key sv.timeout net row.2.1 row.2.2))).countP
          (fun z => exceptIsError z.2) = K) := by
  have h1 := hb (nameTtsFr, msgTtsFrRequired, sv.tts_fr) (by simp [slotRows])
  have h2 := hb (nameTtsWo, msgTtsWoRequired, sv.tts_wo) (by simp [slotRows])
  have h3 := hb (nameSttFr, msgSttFrRequired, sv.stt_fr) (by simp [slotRows])
  have h4 := hb (nameSttWo, msgSttWoRequired, sv.stt_wo) (by simp [slotRows])
  obtain ⟨s1, hs1⟩ := pingAllStep_entries sv.api_key sv.timeout net nameTtsFr
    msgTtsFrRequired sv.tts_fr [] h1
  obtain ⟨s2, hs2⟩ := pingAllStep_entries sv.api_key sv.timeout net nameTtsWo
    msgTtsWoRequired sv.tts_wo
    ([] ++ stepEntries sv.api_key sv.timeout net nameTtsFr msgTtsFrRequired sv.tts_fr) h2
  obtain ⟨s3, hs3⟩ := pingAllStep_entries sv.api_key sv.timeout net nameSttFr
    msgSttFrRequired sv.stt_fr
    ([] ++ stepEntries sv.api_key sv.timeout net nameTtsFr msgTtsFrRequired sv.tts_fr
      ++ stepEntries sv.api_key sv.timeout net nameTtsWo msgTtsWoRequired sv.tts_wo) h3
  obtain ⟨s4, hs4⟩ := pingAllStep_entries sv.api_key sv.timeout net nameSttWo
    msgSttWoRequired sv.stt_wo
    ([] ++ stepEntries sv.api_key sv.timeout net nameTtsFr msgTtsFrRequired sv.tts_fr
      ++ stepEntries sv.api_key sv.timeout net nameTtsWo msgTtsWoRequired sv.tts_wo
      ++ stepEntries sv.api_key sv.timeout net nameSttFr msgSttFrRequired sv.stt_fr) h4
  have hrun : ping_all sv net
      = .ok ([] ++ stepEntries sv.api_key sv.timeout net nameTtsFr msgTtsFrRequired sv.tts_fr
          ++ stepEntries sv.api_key sv.timeout net nameTtsWo msgTtsWoRequired sv.tts_wo
          ++ stepEntries sv.api_key sv.timeout net nameSttFr msgSttFrRequired sv.stt_fr
          ++ stepEntries sv.api_key sv.timeout net nameSttWo msgSttWoRequired sv.stt_wo) := by
    simp only [ping_all, Bind.bind, Except.bind, hs1, hs2, hs3, hs4, pure, Except.pure]
  have hmap : ([] ++ stepEntries sv.api_key sv.timeout net nameTtsFr msgTtsFrRequired sv.tts_fr
        ++ stepEntries sv.api_key sv.timeout net nameTtsWo msgTtsWoRequired sv.tts_wo
        ++ stepEntries sv.api_key sv.timeout net nameSttFr msgSttFrRequired sv.stt_fr
        ++ stepEntries sv.api_key sv.timeout net nameSttWo msgSttWoRequired sv.stt_wo)
      = (configuredRows sv).map
        (fun row => (row.1,
          collapseOutcome (serviceOutcome sv.api_key sv.timeout net row.2.1 row.2.2))) := by
    cases hc1 : pyTruthyOpt sv.tts_fr.base_url <;>
      cases hc2 : pyTruthyOpt sv.tts_wo.base_url <;>
      cases hc3 : pyTruthyOpt sv.stt_fr.base_url <;>
      cases hc4 : pyTruthyOpt sv.stt_wo.base_url <;>
      simp [configuredRows, slotRows, stepEntries, hc1, hc2, hc3, hc4]
  refine ⟨_, hrun, hmap, ?_, ?_, ?_⟩
  · rw [hmap, List.length_map]
  · rw [hmap, List.map_map]
    rfl
  · intro K hK
    rw [hmap, countP_zip_right _ _ _ (by simp), List.countP_map]
    exact hK

/-- C2 witness: two configured local services, one ping failing with a forced
connection error — two entries, one error outcome, one success. -/
theorem claim_C2_witness :
    ∃ l, ping_all svTwoLocal netHalf = .ok l ∧
      l = (configuredRows svTwoLocal).map
        (fun row => (row.1,
          collapseOutcome
            (serviceOutcome svTwoLocal.api_key svTwoLocal.timeout netHalf row.2.1 row.2.2))) ∧
      l.length = (configuredRows svTwoLocal).length ∧
      l.map Prod.fst = (configuredRows svTwoLocal).map (fun row => row.1) ∧
      (∀ K, (configuredRows svTwoLocal).countP
          (fun row => exceptIsError
            (serviceOutcome svTwoLocal.api_key svTwoLocal.timeout netHalf row.2.1 row.2.2))
            = K →
        (l.zip ((configuredRows svTwoLocal).map
          (fun row =>
            serviceOutcome svTwoLocal.api_key svTwoLocal.timeout netHalf row.2.1 row.2.2))).countP
          (fun z => exceptIsError z.2) = K) :=
  claim_C2_ping_all_isolation svTwoLocal netHalf (by decide)

end SenVoiceSDK
